import Mathlib

/-!
Verification development for the navii-scraper crawl engine
(`src/scraper/`: `utils.py`, `parser.py`, `browser.py`,
`progress_manager.py`, `main.py`).

The repository's modules are shallowly embedded: a CSV file on disk is a
list of raw lines (each line already split into fields; a blank line is
`[]`), an absent file is `none`, browser interaction outcomes are explicit
environment data, and every function of the source is a Lean function over
these representations.
-/

namespace NaviiScraper

/-- A raw line of a CSV file, already split into its fields; `[]` models a
blank line (which `csv.DictReader` skips). -/
abbrev Line := List String

/-- A CSV file on disk: the list of its raw lines.  An absent file is
modelled as `none : Option CSVFile`. -/
abbrev CSVFile := List Line

/-- Modelled from the spec: `config.py` is imported by the modules but is
not among the source files; section 6 of the spec fixes the ledger header
(id, name, address, value, region, scrapedAt), matching the keys of the
dict written by `scrape_prefecture`. -/
def CSV_FIELDNAMES : List String :=
  ["id", "name", "address", "prescription_count", "prefecture", "scraped_at"]

/-- Modelled from the spec: `config.MAX_RETRIES`; the spec's retry bound
for session setup is 3 attempts. -/
def MAX_RETRIES : Nat := 3

/-- Generic association-list lookup (a Python dict read). -/
def alistGet {α : Type} : List (String × α) → String → Option α
  | [], _ => none
  | (k, v) :: t, key => if k == key then some v else alistGet t key

/-- Generic association-list update-or-append (a Python dict write). -/
def alistSet {α : Type} : List (String × α) → String → α → List (String × α)
  | [], key, val => [(key, val)]
  | (k, v) :: t, key, val =>
    if k == key then (k, val) :: t else (k, v) :: alistSet t key val

/-- The dict `csv.DictReader` builds for one data row: fieldnames are
zipped with the row's fields; fieldnames beyond the row's length are bound
to `restval` (`None`, modelled as `none`); a duplicated fieldname keeps the
binding made last. -/
def dictRow (fieldnames row : List String) : List (String × Option String) :=
  (fieldnames.zip row).map (fun p => (p.1, some p.2)) ++
    (fieldnames.drop row.length).map (fun k => (k, none))

/-- `row.get(key)` on the dict built by `csv.DictReader`: the last binding
of `key` wins; an unbound key and a `None`-valued key both give `none`. -/
def dictGet (fieldnames row : List String) (key : String) : Option String :=
  (dictRow fieldnames row).foldl (fun acc p => if p.1 == key then p.2 else acc) none

/-- The data rows `csv.DictReader` iterates over: every raw line after the
fieldnames line, with blank lines skipped. -/
def csvDataRows : CSVFile → List Line
  | [] => []
  | _ :: t => t.filter (fun r => !r.isEmpty)

/-- The fieldnames line of a CSV file (its first raw line). -/
def csvHeader : CSVFile → Line
  | [] => []
  | h :: _ => h

/-- `utils.get_existing_ids` (src/scraper/utils.py, lines 43-73): absent
file gives the empty set; otherwise the rows are read with
`csv.DictReader` and every truthy `id` value (bound and non-empty) is
collected; with zero data rows the empty set is returned. -/
def get_existing_ids (file : Option CSVFile) : Finset String :=
  match file with
  | none => ∅
  | some [] => ∅
  | some (header :: rest) =>
    if (rest.filter (fun r => !r.isEmpty)).length == 0 then ∅
    else (rest.filter (fun r => !r.isEmpty)).foldl
      (fun ids row =>
        match dictGet header row "id" with
        | some s => if s == "" then ids else insert s ids
        | none => ids) ∅

/-- `utils.is_csv_valid` (src/scraper/utils.py, lines 76-94): the file
exists and `len(f.readlines()) > 1`, raw lines counted without parsing. -/
def is_csv_valid (file : Option CSVFile) : Bool :=
  match file with
  | none => false
  | some lines => decide (1 < lines.length)

/-- One persisted record, with the fields `scrape_prefecture` saves. -/
structure Record where
  id : String
  name : String
  address : String
  prescription_count : String
  prefecture : String
  scraped_at : String
deriving DecidableEq

/-- The raw line `csv.DictWriter.writerow` emits for a record: the dict's
values in `CSV_FIELDNAMES` order. -/
def record_row (d : Record) : Line :=
  [d.id, d.name, d.address, d.prescription_count, d.prefecture, d.scraped_at]

/-- `utils.append_to_csv` (src/scraper/utils.py, lines 26-40): when the
file does not exist the header line is written first; then the record's
row is appended. -/
def append_to_csv (file : Option CSVFile) (d : Record) : Option CSVFile :=
  match file with
  | none => some [CSV_FIELDNAMES, record_row d]
  | some lines => some (lines ++ [record_row d])

/-! ### parser.py -/

/-- The outcome of visiting one pharmacy's detail page, as seen by
`parser.extract_prescription_count`: the navigation or wait raised (the
outer `except` catches it), the target cell was not found
(`NoSuchElementException`), or the cell was found with the given text. -/
inductive DetailResult where
  | navError
  | noField
  | fieldText (text : String)
deriving DecidableEq

/-- Python's `str.strip()`: leading and trailing whitespace removed. -/
def pyStrip (s : String) : String :=
  ⟨((s.data.dropWhile Char.isWhitespace).reverse.dropWhile Char.isWhitespace).reverse⟩

/-- The greedy match of `\d+(?:,\d+)?` anchored at the head of the list:
`none` when the head is not a digit, otherwise the maximal digit run,
extended by one comma-separated digit run when possible. -/
def matchAt (cs : List Char) : Option (List Char) :=
  match cs with
  | [] => none
  | c :: _ =>
    if c.isDigit then
      match cs.dropWhile Char.isDigit with
      | ',' :: rest =>
        if (rest.takeWhile Char.isDigit).isEmpty then
          some (cs.takeWhile Char.isDigit)
        else
          some (cs.takeWhile Char.isDigit ++ ',' :: rest.takeWhile Char.isDigit)
      | _ => some (cs.takeWhile Char.isDigit)
    else none

/-- `re.search(r'(\d+(?:,\d+)?)', text)`: the greedy match at the leftmost
position where one starts. -/
def regexSearch : List Char → Option (List Char)
  | [] => none
  | c :: cs =>
    match matchAt (c :: cs) with
    | some m => some m
    | none => regexSearch cs

/-- `parser.extract_prescription_count` (src/scraper/parser.py, lines
20-58): any exception during navigation is caught and yields `""`; a
missing target cell yields `""`; otherwise the cell text is stripped and
the first `\d+(?:,\d+)?` match is returned, or `""` when there is none. -/
def extract_prescription_count (d : DetailResult) : String :=
  match d with
  | .navError => ""
  | .noField => ""
  | .fieldText t =>
    match regexSearch (pyStrip t).data with
    | some m => ⟨m⟩
    | none => ""

/-- The state of the pagination control when `parser.has_next_page` looks
for it: no `次へ` link at all, a link whose parent `li` carries the given
`class` attribute, or an exception raised during the check. -/
inductive NextControl where
  | absent
  | present (parentClass : String)
  | checkFail
deriving DecidableEq

/-- Whether the first list leads the second (character-wise). -/
def leadsWith : List Char → List Char → Bool
  | [], _ => true
  | _ :: _, [] => false
  | a :: as, b :: bs => a == b && leadsWith as bs

/-- Python's `needle in haystack` on strings: the needle occurs as a
contiguous run somewhere in the haystack. -/
def occursIn (needle : List Char) : List Char → Bool
  | [] => needle.isEmpty
  | c :: cs => leadsWith needle (c :: cs) || occursIn needle cs

/-- `parser.has_next_page` (src/scraper/parser.py, lines 106-128): `false`
when there is no next link, when `"disabled"` occurs in the parent's
`class` attribute (a Python substring test), or when any exception is
raised during the check. -/
def has_next_page (n : NextControl) : Bool :=
  match n with
  | .absent => false
  | .present cls => !(occursIn "disabled".data cls.data)
  | .checkFail => false

/-! ### browser.py -/

/-- The retry loop shared by `browser.safe_set_value` and
`browser.setup_search_conditions`: `attempts` records, for each iteration
index, whether that whole attempt reaches its `return True` (`true`) or
raises an exception that the `except` clause catches (`false`); indices
beyond the list fail.  After the `for` loop is exhausted the function
falls through to `return False`. -/
def setupLoop (attempts : List Bool) : Nat → Nat → Bool
  | 0, _ => false
  | fuel + 1, i => if attempts.getD i false then true else setupLoop attempts fuel (i + 1)

/-- The number of iterations the retry loop performs before returning. -/
def setupLoopCount (attempts : List Bool) : Nat → Nat → Nat
  | 0, _ => 0
  | fuel + 1, i => if attempts.getD i false then 1 else 1 + setupLoopCount attempts fuel (i + 1)

/-- `browser.setup_search_conditions` (src/scraper/browser.py, lines
226-299): `for attempt in range(MAX_RETRIES)` over whole setup-sequence
attempts; the first successful attempt returns `True`; every exception is
caught, and exhaustion falls through to `return False`. -/
def setup_search_conditions (attempts : List Bool) : Bool :=
  setupLoop attempts MAX_RETRIES 0

/-- The number of whole setup-sequence attempts `setup_search_conditions`
performs. -/
def setup_attempts_made (attempts : List Bool) : Nat :=
  setupLoopCount attempts MAX_RETRIES 0

/-- `browser.safe_set_value` (src/scraper/browser.py, lines 193-223): the
same bounded retry shape over per-try outcomes, returning `False` on
exhaustion. -/
def safe_set_value (tries : List Bool) : Bool :=
  setupLoop tries MAX_RETRIES 0

/-! ### progress_manager.py -/

/-- `ProgressManager.progress_data`: the JSON object mapping a prefecture
code to its status string. -/
abbrev ProgressData := List (String × String)

/-- `ProgressManager.is_done` (src/scraper/progress_manager.py): the
stored status equals `"DONE"`. -/
def is_done (p : ProgressData) (code : String) : Bool :=
  alistGet p code == some "DONE"

/-- `ProgressManager.mark_done` (src/scraper/progress_manager.py): the
code is mapped to `"DONE"` and the store is saved. -/
def mark_done (p : ProgressData) (code : String) : ProgressData :=
  alistSet p code "DONE"

/-- The counters of `progress_manager.Statistics`; `prefecture_stats` maps
a prefecture code to its `(total, with_data)` pair. -/
structure Stats where
  total_pharmacies : Nat := 0
  total_with_data : Nat := 0
  total_without_data : Nat := 0
  errors : Nat := 0
  skipped : Nat := 0
  prefecture_stats : List (String × Nat × Nat) := []
deriving DecidableEq

/-- The per-prefecture bump `Statistics.add_pharmacy` performs on
`prefecture_stats`. -/
def prefStatsBump : List (String × Nat × Nat) → String → Bool → List (String × Nat × Nat)
  | [], code, hd => [(code, 1, if hd then 1 else 0)]
  | (k, t, wd) :: rest, code, hd =>
    if k == code then (k, t + 1, if hd then wd + 1 else wd) :: rest
    else (k, t, wd) :: prefStatsBump rest code hd

/-- `Statistics.add_pharmacy` (src/scraper/progress_manager.py, lines
111-138): bumps the total, exactly one of the with-data and without-data
counters, and the per-prefecture pair. -/
def Stats.add_pharmacy (s : Stats) (code : String) (hd : Bool) : Stats :=
  { s with
    total_pharmacies := s.total_pharmacies + 1
    total_with_data := if hd then s.total_with_data + 1 else s.total_with_data
    total_without_data := if hd then s.total_without_data else s.total_without_data + 1
    prefecture_stats := prefStatsBump s.prefecture_stats code hd }

/-- `Statistics.add_error`. -/
def Stats.add_error (s : Stats) : Stats :=
  { s with errors := s.errors + 1 }

/-- `Statistics.add_skip`. -/
def Stats.add_skip (s : Stats) : Stats :=
  { s with skipped := s.skipped + 1 }

/-! ### main.py -/

/-- One entry of the listing `parser.extract_pharmacy_list` returns. -/
structure PageItem where
  id : String
  name : String
  address : String
  url : String
deriving DecidableEq

/-- The outcome of the return-to-list block after one page's items: the
wait for the result table succeeded and the pagination control is in the
given state, or the block raised (`except: break`). -/
inductive NextOutcome where
  | ok (ctrl : NextControl)
  | exn
deriving DecidableEq

/-- The upstream environment one `scrape_prefecture` call runs against:
the outcome of every whole session-setup attempt, the successive listing
pages `extract_pharmacy_list` yields, the outcome of each post-page next
check, the detail-page outcome per detail URL (a URL with no recorded
outcome fails to navigate), and the clock value used for `scraped_at`. -/
structure RegionEnv where
  setupAttempts : List Bool
  pages : List (List PageItem)
  nexts : List NextOutcome
  details : List (String × DetailResult)
  scrapedAt : String

/-- The state threaded through the pagination and item loops of
`scrape_prefecture`: the in-memory dedup set, the ledger CSV, the
statistics, and the per-prefecture saved-record counter. -/
structure ItemState where
  existing_ids : Finset String
  file : Option CSVFile
  stats : Stats
  prefecture_count : Nat

/-- The body of the item loop of `scrape_prefecture` (src/scraper/main.py,
lines 97-129) for one listed pharmacy: an id already in the dedup set is
skipped with no detail fetch; otherwise the detail page is visited, a
truthy count is saved (row appended, id added to the set, with-data
counter bumped), and a falsy count only bumps the without-data counter. -/
def process_pharmacy (env : RegionEnv) (pref_code pref_name : String)
    (st : ItemState) (ph : PageItem) : ItemState :=
  if ph.id ∈ st.existing_ids then
    { st with stats := st.stats.add_skip }
  else
    let count := extract_prescription_count ((alistGet env.details ph.url).getD .navError)
    if count ≠ "" then
      let save_data : Record :=
        { id := ph.id, name := ph.name, address := ph.address,
          prescription_count := count, prefecture := pref_name,
          scraped_at := env.scrapedAt }
      { existing_ids := insert ph.id st.existing_ids,
        file := append_to_csv st.file save_data,
        stats := st.stats.add_pharmacy pref_code true,
        prefecture_count := st.prefecture_count + 1 }
    else
      { st with stats := st.stats.add_pharmacy pref_code false }

/-- The item loop of `scrape_prefecture`: items processed strictly in
listing order. -/
def processItems (env : RegionEnv) (pref_code pref_name : String)
    (st : ItemState) (items : List PageItem) : ItemState :=
  items.foldl (process_pharmacy env pref_code pref_name) st

/-- The `while True` pagination loop of `scrape_prefecture`
(src/scraper/main.py, lines 85-148): an empty listing breaks; after the
item loop the next check either raises (`break`), reports no next page
(`break`), or advances to the next page. -/
def pageLoop (env : RegionEnv) (pref_code pref_name : String) :
    List (List PageItem) → List NextOutcome → ItemState → ItemState
  | [], _, st => st
  | pl :: _, [], st =>
    if pl.isEmpty then st else processItems env pref_code pref_name st pl
  | pl :: _, .exn :: _, st =>
    if pl.isEmpty then st else processItems env pref_code pref_name st pl
  | pl :: rest, .ok ctrl :: nrest, st =>
    if pl.isEmpty then st
    else if has_next_page ctrl then
      pageLoop env pref_code pref_name rest nrest (processItems env pref_code pref_name st pl)
    else processItems env pref_code pref_name st pl

/-- The slice of the run state one `scrape_prefecture` call touches: the
region's ledger CSV, the progress store, and the statistics. -/
structure RegionState where
  file : Option CSVFile
  progress : ProgressData
  stats : Stats
deriving DecidableEq

/-- The part of `scrape_prefecture` after the completion check
(src/scraper/main.py, lines 69-152): load the dedup set from the CSV;
return unchanged when session setup fails; otherwise run the pagination
loop and mark the prefecture done. -/
def scrape_prefecture_body (env : RegionEnv) (pref_code pref_name : String)
    (w : RegionState) : RegionState :=
  let existing_ids := get_existing_ids w.file
  if !setup_search_conditions env.setupAttempts then
    w
  else
    let st := pageLoop env pref_code pref_name env.pages env.nexts
      { existing_ids := existing_ids, file := w.file, stats := w.stats,
        prefecture_count := 0 }
    { file := st.file, progress := mark_done w.progress pref_code, stats := st.stats }

/-- `scrape_prefecture` (src/scraper/main.py, lines 44-152), with its
completion check: a prefecture recorded DONE whose CSV is not valid is
reprocessed; a prefecture recorded DONE otherwise returns immediately;
any other prefecture is processed. -/
def scrape_prefecture (env : RegionEnv) (pref_code pref_name : String)
    (w : RegionState) : RegionState :=
  if !is_csv_valid w.file && is_done w.progress pref_code then
    scrape_prefecture_body env pref_code pref_name w
  else if is_done w.progress pref_code then
    w
  else
    scrape_prefecture_body env pref_code pref_name w

/-- The run-wide state of `main` (src/scraper/main.py, lines 155-206):
the CSV files on disk keyed by filename, the progress store, and the
statistics. -/
structure World where
  files : List (String × CSVFile)
  progress : ProgressData
  stats : Stats
deriving DecidableEq

/-- The ledger filename `scrape_prefecture` builds for a prefecture. -/
def csv_filename (pref_code pref_name : String) : String :=
  pref_code ++ "_" ++ pref_name ++ "_prescription.csv"

/-- A region environment under which nothing succeeds; used as the lookup
default for a prefecture with no recorded environment. -/
def emptyEnv : RegionEnv :=
  { setupAttempts := [], pages := [], nexts := [], details := [], scrapedAt := "" }

/-- One iteration of the orchestrator loop in `main`: run
`scrape_prefecture` for the prefecture against its environment, reading
its ledger from and writing it back to the filesystem map. -/
def runPrefecture (envs : List (String × RegionEnv)) (w : World)
    (pref : String × String) : World :=
  let fname := csv_filename pref.1 pref.2
  let env := (alistGet envs pref.1).getD emptyEnv
  let rs := scrape_prefecture env pref.1 pref.2
    { file := alistGet w.files fname, progress := w.progress, stats := w.stats }
  { files :=
      match rs.file with
      | some c => alistSet w.files fname c
      | none => w.files,
    progress := rs.progress,
    stats := rs.stats }

/-- The orchestrator loop of `main` (src/scraper/main.py, lines 181-188):
every prefecture of the declared list, in order, one `scrape_prefecture`
call each. -/
def runAll (envs : List (String × RegionEnv)) (prefs : List (String × String))
    (w : World) : World :=
  prefs.foldl (runPrefecture envs) w

/-! ### Observations used by the statements -/

/-- The `id` values of a CSV file's data rows, as `csv.DictReader` reads
them back, empty values included and `None` values dropped. -/
def ledgerIdValues (file : Option CSVFile) : List String :=
  match file with
  | none => []
  | some f => (csvDataRows f).filterMap (fun row => dictGet (csvHeader f) row "id")

/-- The non-empty `id` values of a CSV file's data rows, in row order:
exactly the values `get_existing_ids` collects. -/
def ledgerIds (file : Option CSVFile) : List String :=
  (ledgerIdValues file).filter (fun s => !(s == ""))

/-- How often the value `s` occurs as the `id` of a data row. -/
def idOccurrences (file : Option CSVFile) (s : String) : Nat :=
  (ledgerIdValues file).count s

/-- A ledger the crawl itself can have produced: absent, or led by the
standard header line. -/
def goodLedger (file : Option CSVFile) : Prop :=
  file = none ∨ ∃ rest, file = some (CSV_FIELDNAMES :: rest)

/-- A shape matching the regular expression `\d+(?:,\d+)?`: one non-empty
digit run, optionally followed by a comma and a second non-empty digit
run. -/
def numShape (m : List Char) : Prop :=
  ∃ d1 d2 : List Char, d1 ≠ [] ∧ (∀ c ∈ d1, c.isDigit = true) ∧
    (∀ c ∈ d2, c.isDigit = true) ∧
    (m = d1 ∨ (d2 ≠ [] ∧ m = d1 ++ ',' :: d2))

/-- The dedup invariant threaded through the crawl: the ledger is one
the crawl can have produced, its non-empty ids are pairwise distinct, and
every one of them is in the in-memory dedup set. -/
def crawlInv (st : ItemState) : Prop :=
  goodLedger st.file ∧ (ledgerIds st.file).Nodup ∧
    ∀ s ∈ ledgerIds st.file, s ∈ st.existing_ids

/-! ### Concrete scenarios -/

/-- A ledger holding one record with an empty `id` field. -/
def fileC1x : CSVFile :=
  [CSV_FIELDNAMES, ["", "N", "A", "5", "P", "T0"]]

/-- An upstream whose single listing page repeats the empty-id pharmacy,
with a detail page carrying the count 5. -/
def envC1x : RegionEnv :=
  { setupAttempts := [true],
    pages := [[{ id := "", name := "N", address := "A", url := "u1" }]],
    nexts := [.ok .absent],
    details := [("u1", .fieldText "5")],
    scrapedAt := "T1" }

/-- A well-formed one-record ledger with id `B1`. -/
def fileC1w : CSVFile :=
  [CSV_FIELDNAMES, ["B1", "N1", "Ad1", "3", "P", "T0"]]

/-- An upstream listing one new pharmacy `B2` whose detail page carries
the count 9. -/
def envC1w : RegionEnv :=
  { setupAttempts := [true],
    pages := [[{ id := "B2", name := "N2", address := "Ad2", url := "v2" }]],
    nexts := [.ok .absent],
    details := [("v2", .fieldText "9")],
    scrapedAt := "T1" }

/-- A region environment on which every session-setup attempt raises. -/
def envFail : RegionEnv :=
  { setupAttempts := [false, false, false], pages := [], nexts := [],
    details := [], scrapedAt := "" }

/-- A region environment that sets up at once and yields no listing. -/
def envOkEmpty : RegionEnv :=
  { setupAttempts := [true], pages := [], nexts := [], details := [],
    scrapedAt := "" }

/-- Per-prefecture environments: setup exhausts all attempts for `02` and
succeeds for `03`. -/
def envsC3 : List (String × RegionEnv) :=
  [("02", envFail), ("03", envOkEmpty)]

/-- The declared prefecture order of the scenario of claim C3. -/
def prefsC3 : List (String × String) :=
  [("02", "Aomori"), ("03", "Iwate")]

/-- The initial run-wide state: no files, empty progress, fresh stats. -/
def worldC3 : World :=
  { files := [], progress := [], stats := {} }

/-- Two listing pages: the first holds a pharmacy whose detail navigation
raises (no recorded outcome for its URL) followed by one with count 5;
the second holds one with count 7; the first next check finds an enabled
control, the second finds none. -/
def envC4 : RegionEnv :=
  { setupAttempts := [true],
    pages :=
      [[{ id := "B1", name := "N1", address := "A1", url := "w1" },
        { id := "B2", name := "N2", address := "A2", url := "w2" }],
       [{ id := "B3", name := "N3", address := "A3", url := "w3" }]],
    nexts := [.ok (.present "page-item"), .ok .absent],
    details := [("w2", .fieldText "5"), ("w3", .fieldText "7")],
    scrapedAt := "T1" }

/-- The first listing page of the C6 scenario. -/
def pageC6a : List PageItem :=
  [{ id := "D1", name := "M1", address := "B1", url := "x1" }]

/-- A further listing page recorded behind the disabled control. -/
def pageC6b : List PageItem :=
  [{ id := "D2", name := "M2", address := "B2", url := "x2" }]

/-- One listing page of one pharmacy with count 4, followed by a next
control whose parent carries the disabled class even though a further page
is recorded behind it. -/
def envC6 : RegionEnv :=
  { setupAttempts := [true],
    pages := [pageC6a, pageC6b],
    nexts := [.ok (.present "page-item disabled"), .ok (.present "page-item")],
    details := [("x1", .fieldText "4"), ("x2", .fieldText "6")],
    scrapedAt := "T1" }

/-- The initial region state of the C6 scenario. -/
def wC6 : RegionState :=
  { file := none, progress := [], stats := {} }

/-- The initial item-loop state `scrape_prefecture` builds for `wC6`. -/
def st0C6 : ItemState :=
  { existing_ids := get_existing_ids wC6.file, file := wC6.file, stats := wC6.stats,
    prefecture_count := 0 }

/-- The ledger of the C7 scenario: one record with id `A1`. -/
def fileC7 : CSVFile :=
  [CSV_FIELDNAMES, ["A1", "Ph1", "Adr1", "10", "TestPref", "T0"]]

/-- The upstream of the C7 scenario: one page listing `A1, A2, A3`;
`A2`'s detail page carries the value 120, `A3`'s has no such field. -/
def envC7 : RegionEnv :=
  { setupAttempts := [true],
    pages :=
      [[{ id := "A1", name := "Ph1", address := "Adr1", url := "d1" },
        { id := "A2", name := "Ph2", address := "Adr2", url := "d2" },
        { id := "A3", name := "Ph3", address := "Adr3", url := "d3" }]],
    nexts := [.ok .absent],
    details := [("d2", .fieldText "120"), ("d3", .noField)],
    scrapedAt := "T1" }

/-- The C7 environment with a detail outcome recorded for `A1`'s URL as
well: the run must not consult it. -/
def envC7' : RegionEnv :=
  { envC7 with details := ("d1", .fieldText "999") :: envC7.details }

/-- A ledger whose only content after the header is one blank line: two
raw lines but no data row. -/
def staleLedger : CSVFile :=
  [CSV_FIELDNAMES, []]

/-- The initial region state of the C7 scenario. -/
def wC7 : RegionState :=
  { file := some fileC7, progress := [], stats := {} }

/-- The initial region state of the C4 scenario. -/
def wC4 : RegionState :=
  { file := none, progress := [], stats := {} }

/-! ### Membership in the dedup set -/

theorem mem_ids_foldl (header : Line) (rows : List Line) (init : Finset String) (s : String) :
    s ∈ rows.foldl
      (fun ids row =>
        match dictGet header row "id" with
        | some v => if v == "" then ids else insert v ids
        | none => ids) init ↔
      s ∈ init ∨ (s ≠ "" ∧ ∃ row ∈ rows, dictGet header row "id" = some s) := by
  induction rows generalizing init with
  | nil => simp
  | cons r rs ih =>
    simp only [List.foldl_cons]
    rw [ih]
    cases h : dictGet header r "id" with
    | none =>
      simp only [List.mem_cons, h]
      constructor
      · rintro (hs | ⟨hne, row, hrow, hid⟩)
        · exact Or.inl hs
        · exact Or.inr ⟨hne, row, Or.inr hrow, hid⟩
      · rintro (hs | ⟨hne, row, hrow | hrow, hid⟩)
        · exact Or.inl hs
        · rw [hrow, h] at hid; cases hid
        · exact Or.inr ⟨hne, row, hrow, hid⟩
    | some v =>
      by_cases hv : v = ""
      · subst hv
        simp only [beq_self_eq_true, if_true, List.mem_cons]
        constructor
        · rintro (hs | ⟨hne, row, hrow, hid⟩)
          · exact Or.inl hs
          · exact Or.inr ⟨hne, row, Or.inr hrow, hid⟩
        · rintro (hs | ⟨hne, row, hrow | hrow, hid⟩)
          · exact Or.inl hs
          · rw [hrow, h] at hid
            cases hid
            exact absurd rfl hne
          · exact Or.inr ⟨hne, row, hrow, hid⟩
      · have hbeq : (v == "") = false := by simp [hv]
        simp only [hbeq, Bool.false_eq_true, if_false, Finset.mem_insert, List.mem_cons]
        constructor
        · rintro ((hs | hs) | ⟨hne, row, hrow, hid⟩)
          · subst hs; exact Or.inr ⟨hv, r, Or.inl rfl, h⟩
          · exact Or.inl hs
          · exact Or.inr ⟨hne, row, Or.inr hrow, hid⟩
        · rintro (hs | ⟨hne, row, hrow | hrow, hid⟩)
          · exact Or.inl (Or.inr hs)
          · rw [hrow, h] at hid
            injection hid with hvs
            exact Or.inl (Or.inl hvs.symm)
          · exact Or.inr ⟨hne, row, hrow, hid⟩

theorem mem_get_existing_ids (f : CSVFile) (s : String) :
    s ∈ get_existing_ids (some f) ↔
      s ≠ "" ∧ ∃ row ∈ csvDataRows f, dictGet (csvHeader f) row "id" = some s := by
  cases f with
  | nil => simp [get_existing_ids, csvDataRows]
  | cons header rest =>
    show s ∈ (if ((rest.filter (fun r => !r.isEmpty)).length == 0) = true then ∅
      else (rest.filter (fun r => !r.isEmpty)).foldl _ ∅) ↔ _
    by_cases h0 : (rest.filter (fun r => !r.isEmpty)).length = 0
    · rw [List.length_eq_zero] at h0
      rw [if_pos (by simp [h0])]
      simp [csvDataRows, h0]
    · rw [if_neg (by simpa using h0)]
      rw [mem_ids_foldl]
      simp [csvDataRows, csvHeader]

theorem mem_ledgerIds (file : Option CSVFile) (s : String) :
    s ∈ ledgerIds file ↔
      ∃ f, file = some f ∧ s ≠ "" ∧
        ∃ row ∈ csvDataRows f, dictGet (csvHeader f) row "id" = some s := by
  cases file with
  | none => simp [ledgerIds, ledgerIdValues]
  | some f =>
    simp only [ledgerIds, ledgerIdValues, List.mem_filter, List.mem_filterMap,
      Option.some.injEq]
    constructor
    · rintro ⟨⟨row, hrow, hid⟩, hne⟩
      exact ⟨f, rfl, by simpa using hne, row, hrow, hid⟩
    · rintro ⟨f', hf, hne, row, hrow, hid⟩
      cases hf
      exact ⟨⟨row, hrow, hid⟩, by simpa using hne⟩

theorem ledgerIds_subset_existing (file : Option CSVFile) (s : String)
    (h : s ∈ ledgerIds file) : s ∈ get_existing_ids file := by
  rw [mem_ledgerIds] at h
  obtain ⟨f, rfl, hne, hrow⟩ := h
  exact (mem_get_existing_ids f s).2 ⟨hne, hrow⟩

/-! ### Appending to the ledger -/

theorem dictGet_record (d : Record) :
    dictGet CSV_FIELDNAMES (record_row d) "id" = some d.id := rfl

theorem record_row_isEmpty (d : Record) : (record_row d).isEmpty = false := rfl

theorem filterMap_record (d : Record) :
    List.filterMap (fun row => dictGet CSV_FIELDNAMES row "id") [record_row d] =
      [d.id] := by
  simp [List.filterMap_cons, dictGet_record]

theorem goodLedger_append (file : Option CSVFile) (d : Record) (h : goodLedger file) :
    goodLedger (append_to_csv file d) := by
  rcases h with rfl | ⟨rest, rfl⟩
  · exact Or.inr ⟨[record_row d], rfl⟩
  · exact Or.inr ⟨rest ++ [record_row d], by simp [append_to_csv]⟩

theorem ledgerRow_ids (d : Record) :
    List.filter (fun s => !s == "")
      (List.filterMap (fun row => dictGet CSV_FIELDNAMES row "id")
        (List.filter (fun r => !r.isEmpty) [record_row d])) =
      (if d.id = "" then [] else [d.id]) := by
  rw [show List.filter (fun r => !r.isEmpty) [record_row d] = [record_row d] by
    simp [record_row_isEmpty]]
  rw [filterMap_record]
  by_cases hid : d.id = "" <;> simp [hid]

theorem ledgerIds_append (file : Option CSVFile) (d : Record) (h : goodLedger file) :
    ledgerIds (append_to_csv file d) =
      ledgerIds file ++ (if d.id = "" then [] else [d.id]) := by
  rcases h with rfl | ⟨rest, rfl⟩
  · show List.filter (fun s => !s == "")
        (List.filterMap (fun row => dictGet CSV_FIELDNAMES row "id")
          (List.filter (fun r => !r.isEmpty) [record_row d])) = _
    rw [ledgerRow_ids]
    simp [ledgerIds, ledgerIdValues]
  · show List.filter (fun s => !s == "")
        (List.filterMap (fun row => dictGet CSV_FIELDNAMES row "id")
          (List.filter (fun r => !r.isEmpty) (rest ++ [record_row d]))) = _
    rw [List.filter_append, List.filterMap_append, List.filter_append, ledgerRow_ids]
    rfl

/-! ### Preservation of the dedup invariant -/

theorem process_pharmacy_inv (env : RegionEnv) (c n : String) (st : ItemState)
    (ph : PageItem) (h : crawlInv st) : crawlInv (process_pharmacy env c n st ph) := by
  obtain ⟨hg, hnd, hsub⟩ := h
  unfold process_pharmacy
  by_cases hmem : ph.id ∈ st.existing_ids
  · rw [if_pos hmem]
    exact ⟨hg, hnd, hsub⟩
  · rw [if_neg hmem]
    by_cases hcount :
        extract_prescription_count ((alistGet env.details ph.url).getD .navError) ≠ ""
    · rw [if_pos hcount]
      refine ⟨goodLedger_append _ _ hg, ?_, ?_⟩
      · rw [ledgerIds_append _ _ hg]
        by_cases hid : ph.id = ""
        · simpa [hid] using hnd
        · rw [if_neg hid, List.nodup_append]
          refine ⟨hnd, List.nodup_singleton _, ?_⟩
          rw [List.disjoint_singleton]
          exact fun hin => hmem (hsub _ hin)
      · intro s hs
        rw [ledgerIds_append _ _ hg] at hs
        rw [List.mem_append] at hs
        rcases hs with hs | hs
        · exact Finset.mem_insert_of_mem (hsub s hs)
        · by_cases hid : ph.id = ""
          · rw [if_pos hid] at hs
            cases hs
          · rw [if_neg hid, List.mem_singleton] at hs
            subst hs
            exact Finset.mem_insert_self _ _
    · rw [if_neg hcount]
      exact ⟨hg, hnd, hsub⟩

theorem processItems_inv (env : RegionEnv) (c n : String) (items : List PageItem)
    (st : ItemState) (h : crawlInv st) : crawlInv (processItems env c n st items) := by
  induction items generalizing st with
  | nil => exact h
  | cons ph rest ih =>
    exact ih _ (process_pharmacy_inv env c n st ph h)

theorem pageLoop_inv (env : RegionEnv) (c n : String) (pages : List (List PageItem))
    (nexts : List NextOutcome) (st : ItemState) (h : crawlInv st) :
    crawlInv (pageLoop env c n pages nexts st) := by
  induction pages generalizing nexts st with
  | nil => exact h
  | cons pl rest ih =>
    have h1 := processItems_inv env c n pl st h
    cases nexts with
    | nil =>
      rw [pageLoop]
      by_cases hpl : pl.isEmpty = true
      · rw [if_pos hpl]; exact h
      · rw [if_neg hpl]; exact h1
    | cons nx nrest =>
      cases nx with
      | exn =>
        rw [pageLoop]
        by_cases hpl : pl.isEmpty = true
        · rw [if_pos hpl]; exact h
        · rw [if_neg hpl]; exact h1
      | ok ctrl =>
        rw [pageLoop]
        by_cases hpl : pl.isEmpty = true
        · rw [if_pos hpl]; exact h
        · rw [if_neg hpl]
          by_cases hnp : has_next_page ctrl = true
          · rw [if_pos hnp]
            exact ih _ _ h1
          · rw [if_neg hnp]
            exact h1

/-! ### The region crawl never touches the error counter -/

theorem process_pharmacy_errors (env : RegionEnv) (c n : String) (st : ItemState)
    (ph : PageItem) :
    (process_pharmacy env c n st ph).stats.errors = st.stats.errors := by
  unfold process_pharmacy
  by_cases hmem : ph.id ∈ st.existing_ids
  · rw [if_pos hmem]
    rfl
  · rw [if_neg hmem]
    by_cases hcount :
        extract_prescription_count ((alistGet env.details ph.url).getD .navError) ≠ ""
    · rw [if_pos hcount]
      rfl
    · rw [if_neg hcount]
      rfl

theorem processItems_errors (env : RegionEnv) (c n : String) (items : List PageItem)
    (st : ItemState) :
    (processItems env c n st items).stats.errors = st.stats.errors := by
  induction items generalizing st with
  | nil => rfl
  | cons ph rest ih =>
    show (processItems env c n (process_pharmacy env c n st ph) rest).stats.errors = _
    rw [ih, process_pharmacy_errors]

theorem pageLoop_errors (env : RegionEnv) (c n : String) (pages : List (List PageItem))
    (nexts : List NextOutcome) (st : ItemState) :
    (pageLoop env c n pages nexts st).stats.errors = st.stats.errors := by
  induction pages generalizing nexts st with
  | nil => rfl
  | cons pl rest ih =>
    cases nexts with
    | nil =>
      rw [pageLoop]
      split
      · rfl
      · exact processItems_errors env c n pl st
    | cons nx nrest =>
      cases nx with
      | exn =>
        rw [pageLoop]
        split
        · rfl
        · exact processItems_errors env c n pl st
      | ok ctrl =>
        rw [pageLoop]
        split
        · rfl
        · split
          · rw [ih, processItems_errors]
          · exact processItems_errors env c n pl st

/-! ### Unfolding the completion check -/

theorem scrape_prefecture_cases (env : RegionEnv) (c n : String) (w : RegionState) :
    scrape_prefecture env c n w =
      if is_done w.progress c && is_csv_valid w.file then w
      else scrape_prefecture_body env c n w := by
  unfold scrape_prefecture
  cases hd : is_done w.progress c <;> cases hv : is_csv_valid w.file <;> simp [hd, hv]

theorem scrape_prefecture_errors (env : RegionEnv) (c n : String) (w : RegionState) :
    (scrape_prefecture env c n w).stats.errors = w.stats.errors := by
  rw [scrape_prefecture_cases]
  split
  · rfl
  · unfold scrape_prefecture_body
    split
    · rfl
    · exact pageLoop_errors env c n env.pages env.nexts _

/-! ### Soundness of the regular-expression search -/

theorem takeWhile_digits_sound (l : List Char) :
    ∀ x ∈ l.takeWhile Char.isDigit, x.isDigit = true :=
  fun _ hx => List.mem_takeWhile_imp hx

theorem matchAt_sound (cs m : List Char) (h : matchAt cs = some m) :
    (∃ suf, cs = m ++ suf) ∧ numShape m := by
  cases cs with
  | nil => cases h
  | cons c rest0 =>
    have hrun : (c :: rest0).takeWhile Char.isDigit ++
        (c :: rest0).dropWhile Char.isDigit = c :: rest0 :=
      List.takeWhile_append_dropWhile Char.isDigit (c :: rest0)
    rw [matchAt] at h
    split at h
    case isTrue hd =>
      have hrun_ne : (c :: rest0).takeWhile Char.isDigit ≠ [] := by
        simp [List.takeWhile_cons, hd]
      have hrun_dig := takeWhile_digits_sound (c :: rest0)
      split at h
      case h_1 rest heq =>
        split at h
        case isTrue h2e =>
          injection h with hm
          subst hm
          exact ⟨⟨(c :: rest0).dropWhile Char.isDigit, hrun.symm⟩,
            (c :: rest0).takeWhile Char.isDigit, [], hrun_ne, hrun_dig, by simp,
            Or.inl rfl⟩
        case isFalse h2e =>
          injection h with hm
          subst hm
          have h2run : rest.takeWhile Char.isDigit ++ rest.dropWhile Char.isDigit = rest :=
            List.takeWhile_append_dropWhile Char.isDigit rest
          refine ⟨⟨rest.dropWhile Char.isDigit, ?_⟩,
            (c :: rest0).takeWhile Char.isDigit, rest.takeWhile Char.isDigit,
            hrun_ne, hrun_dig, takeWhile_digits_sound rest,
            Or.inr ⟨fun hnil => h2e (by simp [hnil]), rfl⟩⟩
          rw [List.append_assoc, List.cons_append, h2run, ← heq, hrun]
      case h_2 heq1 heq2 =>
        injection h with hm
        subst hm
        exact ⟨⟨(c :: rest0).dropWhile Char.isDigit, hrun.symm⟩,
          (c :: rest0).takeWhile Char.isDigit, [], hrun_ne, hrun_dig, by simp,
          Or.inl rfl⟩
    case isFalse hd => cases h

theorem matchAt_none_head (c : Char) (rest : List Char)
    (h : matchAt (c :: rest) = none) : c.isDigit = false := by
  by_contra hc
  have hd : c.isDigit = true := by
    cases hx : c.isDigit
    · exact absurd hx hc
    · rfl
  rw [matchAt, if_pos hd] at h
  split at h
  · split at h <;> cases h
  · cases h

theorem regexSearch_sound (cs m : List Char) (h : regexSearch cs = some m) :
    ∃ pre suf, cs = pre ++ m ++ suf ∧ (∀ c ∈ pre, c.isDigit = false) ∧ numShape m := by
  induction cs with
  | nil => cases h
  | cons c rest ih =>
    rw [regexSearch] at h
    split at h
    case h_1 m' heq =>
      injection h with hm
      subst hm
      obtain ⟨⟨suf, hsuf⟩, hshape⟩ := matchAt_sound _ _ heq
      exact ⟨[], suf, by simpa using hsuf, by simp, hshape⟩
    case h_2 heq =>
      obtain ⟨pre, suf, hcs, hpre, hshape⟩ := ih h
      refine ⟨c :: pre, suf, by simp [← hcs], ?_, hshape⟩
      intro x hx
      rcases List.mem_cons.1 hx with rfl | hx
      · exact matchAt_none_head _ rest heq
      · exact hpre x hx

theorem numShape_comma_count (m : List Char) (h : numShape m) : m.count ',' ≤ 1 := by
  obtain ⟨d1, d2, h1ne, h1d, h2d, hcase⟩ := h
  have hcomma : (',' : Char).isDigit = false := by decide
  have c1 : d1.count ',' = 0 := by
    rw [List.count_eq_zero]
    intro hmem
    rw [h1d _ hmem] at hcomma
    cases hcomma
  have c2 : d2.count ',' = 0 := by
    rw [List.count_eq_zero]
    intro hmem
    rw [h2d _ hmem] at hcomma
    cases hcomma
  rcases hcase with rfl | ⟨_, rfl⟩
  · rw [c1]
    exact Nat.zero_le 1
  · rw [List.count_append, c1, List.count_cons_self, c2]

/-! ### The bounded retry loop -/

theorem setupLoop_exhausts (attempts : List Bool) (fuel : Nat) :
    ∀ i, (∀ j, j < fuel → attempts.getD (i + j) false = false) →
      setupLoop attempts fuel i = false ∧ setupLoopCount attempts fuel i = fuel := by
  induction fuel with
  | zero => exact fun i _ => ⟨rfl, rfl⟩
  | succ f ih =>
    intro i h
    have h0 : attempts.getD i false = false := by
      simpa using h 0 (Nat.succ_pos f)
    have hrest := ih (i + 1) (fun j hj => by
      have := h (j + 1) (Nat.succ_lt_succ hj)
      rwa [Nat.add_comm j 1, ← Nat.add_assoc] at this)
    rw [setupLoop, setupLoopCount, h0]
    simp only [Bool.false_eq_true, if_false]
    exact ⟨hrest.1, by rw [hrest.2, Nat.add_comm]⟩

theorem setupLoop_first_success (attempts : List Bool) (fuel : Nat) :
    ∀ i k, k < fuel → (∀ j, j < k → attempts.getD (i + j) false = false) →
      attempts.getD (i + k) false = true →
      setupLoop attempts fuel i = true ∧ setupLoopCount attempts fuel i = k + 1 := by
  induction fuel with
  | zero => exact fun i k hk _ _ => absurd hk (Nat.not_lt_zero k)
  | succ f ih =>
    intro i k hk hprev hsucc
    cases k with
    | zero =>
      rw [Nat.add_zero] at hsucc
      rw [setupLoop, setupLoopCount, hsucc]
      exact ⟨by simp, by simp⟩
    | succ kk =>
      have h0 : attempts.getD i false = false := by
        simpa using hprev 0 (Nat.succ_pos kk)
      have hrest := ih (i + 1) kk (Nat.lt_of_succ_lt_succ hk)
        (fun j hj => by
          have := hprev (j + 1) (Nat.succ_lt_succ hj)
          rwa [Nat.add_comm j 1, ← Nat.add_assoc] at this)
        (by rw [show i + 1 + kk = i + (kk + 1) by omega]; exact hsucc)
      rw [setupLoop, setupLoopCount, h0]
      simp only [Bool.false_eq_true, if_false]
      exact ⟨hrest.1, by rw [hrest.2]; omega⟩

/-! ### Pagination stops after the current page -/

theorem pageLoop_stops (env : RegionEnv) (c n : String) (p : List PageItem)
    (rest : List (List PageItem)) (nx : NextOutcome) (nrest : List NextOutcome)
    (st : ItemState)
    (hstop : nx = .exn ∨ nx = .ok .absent ∨ nx = .ok .checkFail ∨
      ∃ cls, nx = .ok (.present cls) ∧ occursIn "disabled".data cls.data = true) :
    pageLoop env c n (p :: rest) (nx :: nrest) st = processItems env c n st p := by
  have hempty : p.isEmpty = true → processItems env c n st p = st := by
    intro hpl
    rw [List.isEmpty_iff.1 hpl]
    rfl
  rcases hstop with rfl | rfl | rfl | ⟨cls, rfl, hdis⟩
  · rw [pageLoop]
    by_cases hpl : p.isEmpty = true
    · rw [if_pos hpl, hempty hpl]
    · rw [if_neg hpl]
  · rw [pageLoop]
    by_cases hpl : p.isEmpty = true
    · rw [if_pos hpl, hempty hpl]
    · rw [if_neg hpl]
      rw [show has_next_page NextControl.absent = false from rfl]
      simp only [Bool.false_eq_true, if_false]
  · rw [pageLoop]
    by_cases hpl : p.isEmpty = true
    · rw [if_pos hpl, hempty hpl]
    · rw [if_neg hpl]
      rw [show has_next_page NextControl.checkFail = false from rfl]
      simp only [Bool.false_eq_true, if_false]
  · rw [pageLoop]
    by_cases hpl : p.isEmpty = true
    · rw [if_pos hpl, hempty hpl]
    · rw [if_neg hpl]
      rw [show has_next_page (NextControl.present cls) =
        !occursIn "disabled".data cls.data from rfl, hdis]
      simp only [Bool.not_true, Bool.false_eq_true, if_false]

/-! ### The claims -/

/-- C1, counterexample: the claim "running the crawl again appends no
record whose id is already present in the ledger, so each id occurs at
most once in the ledger across runs" fails for the empty id: the ledger
`fileC1x` holds one record whose id field is `""`; `get_existing_ids`
drops empty ids when rebuilding the dedup set, so a rerun listing the same
empty-id pharmacy fetches its detail page again and appends a second
record with id `""`. -/
theorem C1_empty_id_counterexample :
    idOccurrences (some fileC1x) "" = 1 ∧
    idOccurrences (scrape_prefecture envC1x "01" "Hokkaido"
      { file := some fileC1x, progress := [], stats := {} }).file "" = 2 := by
  constructor <;> decide

/-- C1 (amended): for a ledger the crawl can have produced (absent or led
by the standard header) whose non-empty ids are pairwise distinct,
`scrape_prefecture` preserves both properties: the dedup set is rebuilt
from the CSV by `get_existing_ids`, every listed item whose id is in the
set is skipped, and every id appended during the run enters the set
immediately, so each non-empty id still occurs at most once afterwards;
records with empty id are not deduplicated across runs. -/
theorem C1_dedup_preserved (env : RegionEnv) (code name : String) (w : RegionState)
    (hg : goodLedger w.file) (hnd : (ledgerIds w.file).Nodup) :
    goodLedger (scrape_prefecture env code name w).file ∧
    (ledgerIds (scrape_prefecture env code name w).file).Nodup := by
  rw [scrape_prefecture_cases]
  by_cases hskip : (is_done w.progress code && is_csv_valid w.file) = true
  · rw [if_pos hskip]
    exact ⟨hg, hnd⟩
  · rw [if_neg hskip]
    unfold scrape_prefecture_body
    by_cases hsetup : setup_search_conditions env.setupAttempts = true
    · rw [hsetup]
      simp only [Bool.not_true, Bool.false_eq_true, if_false]
      have hinv := pageLoop_inv env code name env.pages env.nexts
        { existing_ids := get_existing_ids w.file, file := w.file, stats := w.stats,
          prefecture_count := 0 }
        ⟨hg, hnd, fun s hs => ledgerIds_subset_existing w.file s hs⟩
      exact ⟨hinv.1, hinv.2.1⟩
    · have hf : setup_search_conditions env.setupAttempts = false := by
        cases hx : setup_search_conditions env.setupAttempts
        · rfl
        · exact absurd hx hsetup
      rw [hf]
      simp only [Bool.not_false, if_true]
      exact ⟨hg, hnd⟩

/-- C1 witness: the amended theorem applied to a run over a well-formed
one-record ledger that appends one new record. -/
theorem C1_dedup_preserved_witness :
    goodLedger (some fileC1w) ∧ (ledgerIds (some fileC1w)).Nodup ∧
    (ledgerIds (scrape_prefecture envC1w "01" "TestPref"
      { file := some fileC1w, progress := [], stats := {} }).file).Nodup :=
  ⟨Or.inr ⟨[["B1", "N1", "Ad1", "3", "P", "T0"]], rfl⟩, by decide,
    (C1_dedup_preserved envC1w "01" "TestPref"
      { file := some fileC1w, progress := [], stats := {} }
      (Or.inr ⟨[["B1", "N1", "Ad1", "3", "P", "T0"]], rfl⟩) (by decide)).2⟩

/-- C2: the early return that skips a region is taken exactly when the
region is marked DONE and its ledger CSV is valid; in every other case —
in particular when the region is marked DONE but `is_csv_valid` is false —
the full body runs. -/
theorem C2_skip_only_when_done_and_valid (env : RegionEnv) (c n : String)
    (w : RegionState) :
    scrape_prefecture env c n w =
      (if is_done w.progress c && is_csv_valid w.file then w
       else scrape_prefecture_body env c n w) :=
  scrape_prefecture_cases env c n w

/-- C3, counterexample: when session setup exhausts all attempts for
region 02, the region is indeed left not-DONE, but the Statistics error
count does not increment — it stays at its initial zero, against the
claim's "Statistics error count increments". -/
theorem C3_no_error_increment_counterexample :
    is_done (runAll envsC3 prefsC3 worldC3).progress "02" = false ∧
    ¬(0 < (runAll envsC3 prefsC3 worldC3).stats.errors) := by
  constructor <;> decide

/-- C3 (amended): when `setup_search_conditions` fails on all attempts,
`scrape_prefecture` returns its state unchanged — no `mark_done`, no
counter change (in particular the error count is unchanged, only a log
line is emitted) — and the orchestrator proceeds to the next region in
declared order: in the two-region scenario, region 02 stays not-DONE
while region 03 is processed to DONE. -/
theorem C3_setup_failure_skips_region :
    (∀ (env : RegionEnv) (code name : String) (w : RegionState),
      setup_search_conditions env.setupAttempts = false →
      scrape_prefecture env code name w = w) ∧
    is_done (runAll envsC3 prefsC3 worldC3).progress "02" = false ∧
    is_done (runAll envsC3 prefsC3 worldC3).progress "03" = true ∧
    (runAll envsC3 prefsC3 worldC3).stats.errors = worldC3.stats.errors := by
  refine ⟨?_, by decide, by decide, by decide⟩
  intro env code name w h
  simp [scrape_prefecture, scrape_prefecture_body, h]

/-- C3 witness: the amended theorem applied to the always-failing
environment. -/
theorem C3_setup_failure_skips_region_witness :
    setup_search_conditions envFail.setupAttempts = false ∧
    scrape_prefecture envFail "02" "Aomori"
      { file := none, progress := [], stats := {} } =
      { file := none, progress := [], stats := {} } :=
  ⟨by decide, C3_setup_failure_skips_region.1 envFail "02" "Aomori"
    { file := none, progress := [], stats := {} } (by decide)⟩

/-- C4: evaluation at the failing input.  In `envC4`, item B1's detail
navigation raises (its URL has no recorded outcome);
`extract_prescription_count` catches the exception and returns `""`, so
the item is counted as without-data and the error counter stays 0 — the
claim's "the Statistics error counter is incremented" is what the
repository's earlier revision (`pharmacy_scraper_enhanced.py`, which calls
`stats.add_error()` there) does, but this module does not.  The rest of
the claim holds: the loop is not aborted (B2, later in the same page, is
processed and saved) and the page-advance still occurs (B3 on the next
page is processed and saved). -/
theorem C4_detail_failure_evaluation :
    extract_prescription_count ((alistGet envC4.details "w1").getD .navError) = "" ∧
    (scrape_prefecture envC4 "01" "TestX" wC4).stats.errors = 0 ∧
    (scrape_prefecture envC4 "01" "TestX" wC4).stats.total_without_data = 1 ∧
    (scrape_prefecture envC4 "01" "TestX" wC4).stats.total_with_data = 2 ∧
    ledgerIds (scrape_prefecture envC4 "01" "TestX" wC4).file = ["B2", "B3"] ∧
    is_done (scrape_prefecture envC4 "01" "TestX" wC4).progress "01" = true := by
  decide

/-- C5: under bounded retry with bound `MAX_RETRIES = 3`, if every attempt
fails (raises, modelled as `false`) the whole sequence is attempted
exactly `MAX_RETRIES` times and the function returns `False` — a failure
signal, every per-attempt exception having been caught — while the first
successful attempt `k` makes it return `True` after exactly `k + 1`
attempts, with no further attempt. -/
theorem C5_retry_bound (attempts : List Bool) :
    ((∀ i, i < MAX_RETRIES → attempts.getD i false = false) →
      setup_search_conditions attempts = false ∧
      setup_attempts_made attempts = MAX_RETRIES) ∧
    (∀ k, k < MAX_RETRIES →
      (∀ i, i < k → attempts.getD i false = false) →
      attempts.getD k false = true →
      setup_search_conditions attempts = true ∧
      setup_attempts_made attempts = k + 1) := by
  constructor
  · intro h
    exact setupLoop_exhausts attempts MAX_RETRIES 0 (fun j hj => by
      simpa using h j hj)
  · intro k hk hprev hsucc
    exact setupLoop_first_success attempts MAX_RETRIES 0 k hk
      (fun j hj => by simpa using hprev j hj) (by simpa using hsucc)

/-- C5 witness: three failing attempts exhaust the bound; with a success
on the second attempt the loop returns after two attempts. -/
theorem C5_retry_bound_witness :
    (setup_search_conditions [false, false, false] = false ∧
      setup_attempts_made [false, false, false] = MAX_RETRIES) ∧
    (setup_search_conditions [false, true] = true ∧
      setup_attempts_made [false, true] = 2) :=
  ⟨(C5_retry_bound [false, false, false]).1
      (fun i _ => by rcases i with _ | _ | _ | i <;> rfl),
    (C5_retry_bound [false, true]).2 1 (by decide)
      (fun i hi => by rw [Nat.lt_one_iff] at hi; subst hi; rfl) (by decide)⟩

/-- C6: when, after the current page, the next control is absent, or its
parent element's class contains "disabled", or any exception occurs while
checking for it — whether in the surrounding wait block (`.exn`) or
inside `has_next_page`'s own check (`.ok .checkFail`, which the function
catches and turns into `False`) — the pagination loop exits: the region
result is exactly one item-loop pass over the current page followed by
`mark_done`, pages recorded behind the control are never fetched, and the
error counter is unchanged. -/
theorem C6_pagination_termination (env : RegionEnv) (code name : String)
    (w : RegionState) (p : List PageItem) (rest : List (List PageItem))
    (nx : NextOutcome) (nrest : List NextOutcome)
    (hp : env.pages = p :: rest) (hn : env.nexts = nx :: nrest)
    (hstop : nx = .exn ∨ nx = .ok .absent ∨ nx = .ok .checkFail ∨
      ∃ cls, nx = .ok (.present cls) ∧ occursIn "disabled".data cls.data = true)
    (hsetup : setup_search_conditions env.setupAttempts = true)
    (hskip : (is_done w.progress code && is_csv_valid w.file) = false) :
    scrape_prefecture env code name w =
      { file := (processItems env code name
          { existing_ids := get_existing_ids w.file, file := w.file,
            stats := w.stats, prefecture_count := 0 } p).file,
        progress := mark_done w.progress code,
        stats := (processItems env code name
          { existing_ids := get_existing_ids w.file, file := w.file,
            stats := w.stats, prefecture_count := 0 } p).stats } ∧
    (scrape_prefecture env code name w).stats.errors = w.stats.errors := by
  refine ⟨?_, scrape_prefecture_errors env code name w⟩
  rw [scrape_prefecture_cases, if_neg (by simp [hskip])]
  unfold scrape_prefecture_body
  rw [hsetup]
  simp only [Bool.not_true, Bool.false_eq_true, if_false]
  rw [hp, hn, pageLoop_stops env code name p rest nx nrest _ hstop]

/-- C6 witness: the theorem applied to a disabled next control with a
further page recorded behind it. -/
theorem C6_pagination_termination_witness :
    setup_search_conditions envC6.setupAttempts = true ∧
    occursIn "disabled".data "page-item disabled".data = true ∧
    (scrape_prefecture envC6 "01" "P6" wC6 =
      { file := (processItems envC6 "01" "P6" st0C6 pageC6a).file,
        progress := mark_done wC6.progress "01",
        stats := (processItems envC6 "01" "P6" st0C6 pageC6a).stats } ∧
      (scrape_prefecture envC6 "01" "P6" wC6).stats.errors = wC6.stats.errors) :=
  ⟨by decide, by decide,
    C6_pagination_termination envC6 "01" "P6" wC6 pageC6a [pageC6b]
      (.ok (.present "page-item disabled")) [.ok (.present "page-item")]
      rfl rfl
      (Or.inr (Or.inr (Or.inr ⟨"page-item disabled", rfl, by decide⟩)))
      (by decide) (by decide)⟩

/-- C7: in the scenario — existing ledger `{A1}`, fetched page
`[A1, A2, A3]`, detail value "120" for A2 and none for A3 — the skip
counter ends at 1, the with-data counter at 1, the without-data counter at
1, the ledger gains exactly A2's record with value "120", the ledger id
set becomes `{A1, A2}`, and A1's detail page is never consulted (recording
an outcome for its URL changes nothing). -/
theorem C7_scenario :
    (scrape_prefecture envC7 "01" "TestPref" wC7).stats.skipped = 1 ∧
    (scrape_prefecture envC7 "01" "TestPref" wC7).stats.total_with_data = 1 ∧
    (scrape_prefecture envC7 "01" "TestPref" wC7).stats.total_without_data = 1 ∧
    (scrape_prefecture envC7 "01" "TestPref" wC7).file =
      some (fileC7 ++ [["A2", "Ph2", "Adr2", "120", "TestPref", "T1"]]) ∧
    get_existing_ids (scrape_prefecture envC7 "01" "TestPref" wC7).file =
      {"A1", "A2"} ∧
    scrape_prefecture envC7' "01" "TestPref" wC7 =
      scrape_prefecture envC7 "01" "TestPref" wC7 := by
  decide

/-- C8: `get_existing_ids` returns the empty set for an absent file, the
empty set for a file whose reader yields no data rows (in particular a
header-only file), and otherwise exactly the set of non-empty id values of
the data rows. -/
theorem C8_get_existing_ids_spec :
    get_existing_ids none = ∅ ∧
    (∀ f : CSVFile, csvDataRows f = [] → get_existing_ids (some f) = ∅) ∧
    (∀ (f : CSVFile) (s : String),
      s ∈ get_existing_ids (some f) ↔
        s ≠ "" ∧ ∃ row ∈ csvDataRows f, dictGet (csvHeader f) row "id" = some s) := by
  refine ⟨rfl, ?_, fun f s => mem_get_existing_ids f s⟩
  intro f hf
  cases f with
  | nil => rfl
  | cons header rest =>
    have hnil : rest.filter (fun r => !r.isEmpty) = [] := by
      simpa [csvDataRows] using hf
    show (if ((rest.filter (fun r => !r.isEmpty)).length == 0) = true then ∅
      else (rest.filter (fun r => !r.isEmpty)).foldl _ ∅) = ∅
    rw [if_pos (by simp [hnil])]

/-- C8 witness: the header-only file case. -/
theorem C8_get_existing_ids_spec_witness :
    csvDataRows [["id", "name"]] = [] ∧
    get_existing_ids (some [["id", "name"]]) = ∅ :=
  ⟨by decide, C8_get_existing_ids_spec.2.1 [["id", "name"]] (by decide)⟩

/-- C9: `is_csv_valid` is true exactly when the file exists with more than
one raw line, rows unparsed; the ledger `staleLedger` (header plus one
blank line) is therefore valid while `get_existing_ids` finds no id in it,
and a region marked DONE with that ledger is skipped unchanged by
`scrape_prefecture` even though the ledger holds no data ids. -/
theorem C9_valid_csv_without_data :
    (∀ file : Option CSVFile,
      is_csv_valid file = true ↔ ∃ lines, file = some lines ∧ 1 < lines.length) ∧
    is_csv_valid (some staleLedger) = true ∧
    get_existing_ids (some staleLedger) = ∅ ∧
    (∀ (env : RegionEnv) (code name : String) (stats0 : Stats),
      scrape_prefecture env code name
        { file := some staleLedger, progress := [(code, "DONE")], stats := stats0 } =
        { file := some staleLedger, progress := [(code, "DONE")], stats := stats0 }) := by
  refine ⟨?_, by decide, by decide, ?_⟩
  · intro file
    cases file with
    | none => simp [is_csv_valid]
    | some lines =>
      simp only [is_csv_valid, decide_eq_true_eq, Option.some.injEq]
      constructor
      · exact fun h => ⟨lines, rfl, h⟩
      · rintro ⟨l', rfl, h⟩
        exact h
  · intro env code name stats0
    rw [scrape_prefecture_cases]
    rw [if_pos (show (is_done [(code, "DONE")] code &&
        is_csv_valid (some staleLedger)) = true by
      simp [is_done, alistGet, is_csv_valid, staleLedger])]

/-- C10: `extract_prescription_count` on a detail field text returns
either the empty string or a substring of the stripped text that matches
`\d+(,\d+)?` and starts at the first position where any such match can
start (every character before it is a non-digit); consequently any
non-empty return value contains at most one comma, and the field
"1,234,567" yields the truncated value "1,234". -/
theorem C10_regex_extraction (t : String) :
    (extract_prescription_count (.fieldText t) = "" ∨
      ∃ pre suf : List Char,
        (pyStrip t).data =
          pre ++ (extract_prescription_count (.fieldText t)).data ++ suf ∧
        (∀ c ∈ pre, c.isDigit = false) ∧
        numShape (extract_prescription_count (.fieldText t)).data) ∧
    (extract_prescription_count (.fieldText t)).data.count ',' ≤ 1 ∧
    extract_prescription_count (.fieldText "1,234,567") = "1,234" := by
  cases hr : regexSearch (pyStrip t).data with
  | none =>
    have hempty : extract_prescription_count (.fieldText t) = "" := by
      show (match regexSearch (pyStrip t).data with
        | some m => (⟨m⟩ : String)
        | none => "") = ""
      rw [hr]
    refine ⟨Or.inl hempty, ?_, by decide⟩
    rw [hempty]
    decide
  | some m =>
    have hval : extract_prescription_count (.fieldText t) = ⟨m⟩ := by
      show (match regexSearch (pyStrip t).data with
        | some m => (⟨m⟩ : String)
        | none => "") = _
      rw [hr]
    obtain ⟨pre, suf, hdec, hpre, hshape⟩ := regexSearch_sound _ _ hr
    refine ⟨Or.inr ⟨pre, suf, ?_, hpre, ?_⟩, ?_, by decide⟩
    · rw [hval]
      exact hdec
    · rw [hval]
      exact hshape
    · rw [hval]
      exact numShape_comma_count m hshape

end NaviiScraper
